import Mathlib

/-!
Shallow embedding of the pricing / benefits / coupon core of the ReactWeb
bakery storefront (src/src/context/AppContext.tsx, src/src/pages/CarritoPage.tsx,
src/src/services/products.ts, src/src/services/coupons.ts).

Conventions of the embedding:
* JavaScript numbers that hold money are non-negative whole currency units in
  the source; they are embedded as `Nat`.  Every `Math.max(0, a - b)` of the
  source is truncated subtraction on `Nat` (they agree on integers).
* `Math.round` applied to `p * (1 - d)` with a percentage `d` is embedded as
  exact rational round-half-up, written over `Nat` as `(p * (100 - d) + 50) / 100`
  with `d` carried in integer percent points (0, 10, 50, 100).
* A possibly non-finite / fractional JS quantity is embedded as `Option ℚ`
  (`none` = NaN / ±Infinity), and `Math.floor` is `Int.floor`.
* TypeScript optional fields are `Option`; string maps are association lists.
-/

namespace ReactWeb

/-- A calendar date, as the source reads it from `new Date()` and the stored
birth date: only year / month / day matter to the core. -/
structure SimpleDate where
  year : Int
  month : Nat
  day : Nat
deriving DecidableEq, Repr

/-- `Product` (src/types): the fields the pricing core reads. -/
structure Product where
  id : String
  precio : Nat
  stock : Nat
deriving DecidableEq, Repr

/-- `CartItem` (src/types): a raw cart line; `qty` is a raw JS number. -/
structure CartItem where
  id : String
  qty : Option ℚ
  msg : String
deriving DecidableEq, Repr

/-- `ProductPricing` (src/types). -/
structure ProductPricing where
  originalUnitPrice : Nat
  unitPrice : Nat
  discountPercent : Nat
  discountPerUnit : Nat
  originalTotal : Nat
  discountTotal : Nat
  total : Nat
deriving DecidableEq, Repr

/-- The customer-profile fields the discount logic reads (`CustomerUser` /
`CustomerSession` in src/types; the session mirrors the profile fields
one-to-one).  `fnac` is the parsed birth date (`none` = missing/unparsable). -/
structure CustomerUser where
  email : String
  fnac : Option SimpleDate
  promoCode : Option String
  felices50 : Bool
  bdayRedeemedYear : Option Int
deriving DecidableEq, Repr

/-- `CouponInfo.type` (src/types): `"ship" | "amount"`. -/
inductive CouponKind where
  | ship : CouponKind
  | amount : CouponKind
deriving DecidableEq, Repr

/-- `CouponInfo` (src/types). -/
structure CouponInfo where
  code : String
  type : CouponKind
  value : Int
  label : String
deriving DecidableEq, Repr

/-- `CouponEval` result shape of `evaluateCoupon` in AppContext. -/
structure CouponEval where
  valid : Bool
  discount : Nat
  shipAfter : Nat
  label : Option String
  code : Option String
deriving DecidableEq, Repr

/-- `UserBenefits` (src/types). -/
structure UserBenefits where
  userDisc : Nat
  userLabel : String
  bdayDisc : Nat
  bdayLabel : String
  bdayEligible : Bool
  bdayApplied : Bool
  freeShipping : Bool
  shippingLabel : String
deriving DecidableEq, Repr

/-- One entry of `CartTotals.items` (src/types). -/
structure CartEntry where
  product : Product
  qty : Nat
  msg : String
  subtotal : Nat
  pricing : ProductPricing
deriving DecidableEq, Repr

/-- `CartTotals` (src/types). -/
structure CartTotals where
  items : List CartEntry
  subTotal : Nat
  effectiveSubtotal : Nat
  discountTotal : Nat
  totalQty : Nat
deriving DecidableEq, Repr

/-- `FELICES_CODE` constant of AppContext. -/
def FELICES_CODE : String := "FELICES50"

/-- `BDAY_CAKE_ID` constant of AppContext. -/
def BDAY_CAKE_ID : String := "BDAY001"

/-- `SENIOR_DISCOUNT = 0.5` of AppContext, in percent points. -/
def SENIOR_DISCOUNT : Nat := 50

/-- `PROMO_DISCOUNT = 0.1` of AppContext, in percent points. -/
def PROMO_DISCOUNT : Nat := 10

/-- JS `toUpperCase()`, embedded as a per-character map (the source only
compares ASCII codes). -/
def jsToUpper (s : String) : String :=
  String.mk (s.data.map Char.toUpper)

/-- JS `toLowerCase()`, embedded as a per-character map. -/
def jsToLower (s : String) : String :=
  String.mk (s.data.map Char.toLower)

/-- JS `trim()`: strip leading and trailing whitespace. -/
def jsTrim (s : String) : String :=
  String.mk (((s.data.dropWhile Char.isWhitespace).reverse.dropWhile
    Char.isWhitespace).reverse)

/-- The regex `EMAIL_DUOC_REGEX = /@duoc\.cl$/i` of AppContext: a
case-insensitive test that the email ends in the literal `@duoc.cl`. -/
def emailDuocTest (email : String) : Bool :=
  "@duoc.cl".data.isSuffixOf (jsToLower email).data

/-- Modelled from the spec: `computeAge` lives in `src/utils/dates`, which is
not among the repository sources; the spec says the discount age is "computed
from `birthDate` as of evaluation time", and the callers guard with
`typeof age === "number"`, so a missing/unparsable birth date yields no age.
This is the usual calendar age: year difference, minus one when today's
month/day precedes the birth month/day. -/
def computeAge (today : SimpleDate) : Option SimpleDate → Option Int
  | none => none
  | some b =>
      some (today.year - b.year -
        (if today.month < b.month ∨ (today.month = b.month ∧ today.day < b.day)
          then 1 else 0))

/-- Modelled from the spec: `isBirthdayToday` lives in `src/utils/dates`, which
is not among the repository sources; the spec says the birthday check is
"today's month/day equals the birth month/day". -/
def isBirthdayToday (today : SimpleDate) : Option SimpleDate → Bool
  | none => false
  | some b => today.month == b.month && today.day == b.day

/-- `birthdayRewardEligible` memo of AppContext: a customer session exists,
the email matches `EMAIL_DUOC_REGEX`, and today is the birth month/day. -/
def birthdayRewardEligible (today : SimpleDate) (session : Option CustomerUser) : Bool :=
  match session with
  | none => false
  | some s => emailDuocTest s.email && isBirthdayToday today s.fnac

/-- `birthdayRewardAvailable` memo of AppContext: eligible, and
`(bdayRedeemedYear ?? null) !== thisYear`. -/
def birthdayRewardAvailable (today : SimpleDate) (session : Option CustomerUser) : Bool :=
  birthdayRewardEligible today session &&
    (match session with
     | none => true
     | some s =>
        match s.bdayRedeemedYear with
        | none => true
        | some y => y ≠ today.year)

/-- `userDiscountPercent` memo of AppContext (the service-backed variant at
lines 3264–3272): senior 50% when age > 50, else 10% on promo code
`FELICES50` (compared upper-cased) or the permanent `felices50` flag. -/
def userDiscountPercent (today : SimpleDate) (profile : Option CustomerUser) : Nat :=
  match profile with
  | none => 0
  | some p =>
      if (match computeAge today p.fnac with
          | some age => decide (age > 50)
          | none => false) = true then SENIOR_DISCOUNT
      else if p.promoCode.map jsToUpper = some FELICES_CODE ∨ p.felices50 = true then
        PROMO_DISCOUNT
      else 0

/-- `Number.isFinite(qty) ? Math.max(1, Math.floor(qty)) : 1` in
`getProductPricing`, and the identical clamp inside `cartTotals`. -/
def coerceQuantity : Option ℚ → Nat
  | none => 1
  | some q => (max 1 ⌊q⌋).toNat

/-- `Math.max(0, Math.round(p * (1 - d)))` with `d` in percent points,
as exact round-half-up on rationals with denominator 100. -/
def roundDiscounted (p d : Nat) : Nat :=
  (p * (100 - d) + 50) / 100

/-- `getProductPricing` of AppContext (lines 3274–3311).  The captured context
values `birthdayRewardAvailable` and `userDiscountPercent` are passed
explicitly as `bdayAvail` and `discountPercentCtx`. -/
def getProductPricing (bdayAvail : Bool) (discountPercentCtx : Nat)
    (product : Product) (qtyRaw : Option ℚ) : ProductPricing :=
  let quantity := coerceQuantity qtyRaw
  if product.id = BDAY_CAKE_ID ∧ bdayAvail = true then
    let originalUnitPrice := product.precio
    let discountPerUnit := originalUnitPrice
    let discountTotal := discountPerUnit * quantity
    { originalUnitPrice := originalUnitPrice
      unitPrice := 0
      discountPercent := 100
      discountPerUnit := discountPerUnit
      originalTotal := originalUnitPrice * quantity
      discountTotal := discountTotal
      total := 0 }
  else
    let originalUnitPrice := product.precio
    let discountPercent := discountPercentCtx
    let unitPrice :=
      if discountPercent > 0 then roundDiscounted originalUnitPrice discountPercent
      else originalUnitPrice
    let discountPerUnit := originalUnitPrice - unitPrice
    { originalUnitPrice := originalUnitPrice
      unitPrice := unitPrice
      discountPercent := discountPercent
      discountPerUnit := discountPerUnit
      originalTotal := originalUnitPrice * quantity
      discountTotal := discountPerUnit * quantity
      total := unitPrice * quantity }

/-- The per-line body of the `cart.map(...)` inside `cartTotals`
(lines 3313–3336): resolve the product, clamp the quantity, price the line;
`none` when the product no longer exists. -/
def resolveCartLine (products : List Product) (bdayAvail : Bool)
    (discountPercentCtx : Nat) (item : CartItem) : Option CartEntry :=
  match products.find? (fun p => p.id = item.id) with
  | none => none
  | some product =>
      let isBirthdayCake := product.id = BDAY_CAKE_ID
      let available := max 1 (if isBirthdayCake then min 1 product.stock else product.stock)
      let qty := min available (coerceQuantity item.qty)
      let pricing := getProductPricing bdayAvail discountPercentCtx product (some (qty : ℚ))
      some { product := product
             qty := qty
             msg := item.msg
             subtotal := pricing.originalTotal
             pricing := pricing }

/-- `cartTotals` memo of AppContext (lines 3313–3336). -/
def cartTotals (products : List Product) (bdayAvail : Bool)
    (discountPercentCtx : Nat) (cart : List CartItem) : CartTotals :=
  let items := cart.filterMap (resolveCartLine products bdayAvail discountPercentCtx)
  { items := items
    subTotal := (items.map (fun e => e.subtotal)).sum
    effectiveSubtotal := (items.map (fun e => e.pricing.total)).sum
    discountTotal := (items.map (fun e => e.pricing.discountTotal)).sum
    totalQty := (items.map (fun e => e.qty)).sum }

/-- `evaluateCoupon` of AppContext (lines 3346–3366).  The captured `coupon`
state and `couponDefinitions` record are passed explicitly; the record is an
association list keyed by canonical upper-case code. -/
def evaluateCoupon (coupon : String) (couponDefinitions : List (String × CouponInfo))
    (subTotal shipCost : Nat) : CouponEval :=
  let code := jsToUpper (jsTrim coupon)
  if code = "" ∨ code = FELICES_CODE then
    { valid := false, discount := 0, shipAfter := shipCost, label := none, code := none }
  else
    match couponDefinitions.lookup code with
    | none =>
        { valid := false, discount := 0, shipAfter := shipCost, label := none, code := none }
    | some definition =>
        match definition.type with
        | CouponKind.amount =>
            let discount := (min (subTotal : Int) definition.value).toNat
            { valid := true, discount := discount, shipAfter := shipCost
              label := some definition.label, code := some code }
        | CouponKind.ship =>
            { valid := true, discount := 0, shipAfter := 0
              label := some definition.label, code := some code }

/-- `benefitsForCart` of AppContext (lines 3375–3432).  The captured context
values (`customerSession`, `birthdayRewardEligible`, `birthdayRewardAvailable`,
`userDiscountPercent`) are reconstructed from `today` and `session`. -/
def benefitsForCart (today : SimpleDate) (session : Option CustomerUser)
    (items : List CartEntry) (subTotal : Nat) : UserBenefits :=
  match session with
  | none =>
      { userDisc := 0, userLabel := "", bdayDisc := 0, bdayLabel := ""
        bdayEligible := false, bdayApplied := false
        freeShipping := false, shippingLabel := "" }
  | some s =>
      let eligibleToday := birthdayRewardEligible today (some s)
      let rewardAvailable := birthdayRewardAvailable today (some s)
      let cake := items.find? (fun item => item.product.id = BDAY_CAKE_ID)
      let bdayState :=
        match cake with
        | some c =>
            if rewardAvailable = true ∧ c.qty > 0 then
              let cakeDiscount := c.pricing.discountTotal
              let onlyCakeInCart := items.length = 1 ∧ c.product.id = BDAY_CAKE_ID
              ((cakeDiscount, "Beneficio DUOC: Torta de Cumpleaños gratis",
                decide (cakeDiscount > 0)),
               (if onlyCakeInCart then
                  (true, "Envío gratis por tu cumpleaños DUOC")
                else (false, "")))
            else ((0, "", false), (false, ""))
        | none => ((0, "", false), (false, ""))
      let bdayDisc := bdayState.1.1
      let percent := userDiscountPercent today (some s)
      let base := subTotal - bdayDisc
      let discountFromItems := (items.map (fun e => e.pricing.discountTotal)).sum
      let userDisc := if percent > 0 then min base discountFromItems else 0
      let percentLabel := Nat.repr percent ++ "% OFF"
      let userLabel :=
        if percent > 0 then
          if (match computeAge today s.fnac with
              | some age => decide (age ≥ 50)
              | none => false) = true ∧ percent ≥ 50 then
            "Beneficio Adulto Mayor (" ++ percentLabel ++ ")"
          else if s.felices50 = true then
            "Beneficio FELICES50 (" ++ percentLabel ++ ")"
          else
            "Beneficio de usuario (" ++ percentLabel ++ ")"
        else ""
      { userDisc := userDisc
        userLabel := userLabel
        bdayDisc := bdayDisc
        bdayLabel := bdayState.1.2.1
        bdayEligible := eligibleToday
        bdayApplied := bdayState.1.2.2
        freeShipping := bdayState.2.1
        shippingLabel := bdayState.2.2 }

/-- The checkout breakdown computed inline by `CarritoPage` (lines 97–107). -/
structure CheckoutTotals where
  baseAfterBenefits : Nat
  shipBeforeCoupons : Nat
  couponInfo : CouponEval
  effectiveShip : Nat
  total : Nat
deriving DecidableEq, Repr

/-- The checkout composition of `CarritoPage` (lines 97–107): base after
benefits, shipping before coupons, coupon evaluation against that pair,
effective shipping, and the clamped final total. -/
def carritoCheckout (coupon : String) (couponDefinitions : List (String × CouponInfo))
    (subTotal : Nat) (benefits : UserBenefits) (shippingCost : Nat) : CheckoutTotals :=
  let baseAfterBenefits :=
    ((subTotal : Int) - benefits.bdayDisc - benefits.userDisc).toNat
  let shipBeforeCoupons := if benefits.freeShipping then 0 else shippingCost
  let couponInfo := evaluateCoupon coupon couponDefinitions baseAfterBenefits shipBeforeCoupons
  let effectiveShip :=
    if benefits.freeShipping then 0
    else if couponInfo.valid then couponInfo.shipAfter
    else shipBeforeCoupons
  let total :=
    ((baseAfterBenefits : Int) -
        (if couponInfo.valid then (couponInfo.discount : Int) else 0) +
      effectiveShip).toNat
  { baseAfterBenefits := baseAfterBenefits
    shipBeforeCoupons := shipBeforeCoupons
    couponInfo := couponInfo
    effectiveShip := effectiveShip
    total := total }

/-- `ProductResponse` of src/services/products.ts. -/
structure ProductResponse where
  id : String
  price : Nat
  stock : Nat
  active : Bool
deriving DecidableEq, Repr

/-- `mapProduct` of src/services/products.ts: the birthday cake's base price
is forced to zero on load. -/
def mapProduct (response : ProductResponse) : Product :=
  { id := response.id
    precio := if response.id = BDAY_CAKE_ID then 0 else response.price
    stock := response.stock }

/-- `fetchProducts` of src/services/products.ts, as a pure function of the
backend payload: keep active products, map them into catalog `Product`s. -/
def fetchProductsPure (data : List ProductResponse) : List Product :=
  (data.filter (fun r => r.active)).map mapProduct

/-- Spec-side totalizer, written step for step from the spec's fixed
composition order (§4.5), to be compared with the source-embedded
`carritoCheckout`:
1. `base = max(0, s - b - u)`;
2. `shipBefore = f ? 0 : h`;
3. coupon evaluated against `(base, shipBefore)`;
4. `effectiveShip = f ? 0 : (valid ? couponShipAfter : shipBefore)`;
5. `total = max(0, base - (valid ? couponDiscount : 0) + effectiveShip)`. -/
def totalizeSpec (coupon : String) (couponDefinitions : List (String × CouponInfo))
    (s b u : Nat) (f : Bool) (h : Nat) : Int :=
  let base : Int := max 0 ((s : Int) - b - u)
  let shipBefore : Int := if f then 0 else (h : Int)
  let ce := evaluateCoupon coupon couponDefinitions base.toNat shipBefore.toNat
  let effectiveShip : Int :=
    if f then 0 else if ce.valid then (ce.shipAfter : Int) else shipBefore
  max 0 (base - (if ce.valid then (ce.discount : Int) else 0) + effectiveShip)

/-! ## Helper lemmas -/

theorem roundDiscounted_le (p d : Nat) : roundDiscounted p d ≤ p := by
  unfold roundDiscounted
  have h1 : p * (100 - d) + 50 ≤ p * 100 + 50 := by
    have := Nat.mul_le_mul_left p (Nat.sub_le 100 d)
    omega
  calc (p * (100 - d) + 50) / 100 ≤ (p * 100 + 50) / 100 :=
        Nat.div_le_div_right h1
    _ = p := by omega

theorem getProductPricing_unitPrice_le (a : Bool) (d : Nat) (p : Product) (q : Option ℚ) :
    (getProductPricing a d p q).unitPrice ≤ p.precio := by
  unfold getProductPricing
  by_cases h : p.id = BDAY_CAKE_ID ∧ a = true
  · simp [h]
  · simp only [h, if_false]
    by_cases hd : d > 0
    · simpa [hd] using roundDiscounted_le p.precio d
    · simp [hd]

theorem getProductPricing_discountTotal_zero (a : Bool) (d : Nat) (p : Product)
    (q : Option ℚ) (hp : p.precio = 0) : (getProductPricing a d p q).discountTotal = 0 := by
  unfold getProductPricing
  by_cases h : p.id = BDAY_CAKE_ID ∧ a = true
  · simp [h, hp]
  · simp only [h, if_false]
    have : p.precio - (if d > 0 then roundDiscounted p.precio d else p.precio) = 0 := by
      by_cases hd : d > 0
      · simp [hd, hp, roundDiscounted]
      · simp [hd]
    simp [this]

theorem getProductPricing_discountTotal_le (a : Bool) (d : Nat) (p : Product) (q : Option ℚ) :
    (getProductPricing a d p q).discountTotal ≤ (getProductPricing a d p q).originalTotal := by
  unfold getProductPricing
  by_cases h : p.id = BDAY_CAKE_ID ∧ a = true
  · simp [h]
  · simp only [h, if_false]
    exact Nat.mul_le_mul_right _ (Nat.sub_le _ _)

theorem fetchProductsPure_cake_price (data : List ProductResponse) (p : Product)
    (hmem : p ∈ fetchProductsPure data) (hid : p.id = BDAY_CAKE_ID) : p.precio = 0 := by
  unfold fetchProductsPure at hmem
  rcases List.mem_map.mp hmem with ⟨r, _, rfl⟩
  unfold mapProduct at hid ⊢
  simp only at hid
  simp [hid]

theorem resolveCartLine_entry (products : List Product) (a : Bool) (d : Nat)
    (item : CartItem) (entry : CartEntry)
    (h : resolveCartLine products a d item = some entry) :
    entry.product ∈ products ∧
      entry.pricing = getProductPricing a d entry.product (some (entry.qty : ℚ)) ∧
      entry.subtotal = entry.pricing.originalTotal := by
  unfold resolveCartLine at h
  cases hf : products.find? (fun p => p.id = item.id) with
  | none => simp [hf] at h
  | some product =>
      simp only [hf] at h
      have hmem := List.mem_of_find?_eq_some hf
      cases h
      refine ⟨hmem, ?_, ?_⟩ <;> rfl

theorem cartTotals_entry_mem (products : List Product) (a : Bool) (d : Nat)
    (cart : List CartItem) (entry : CartEntry)
    (hmem : entry ∈ (cartTotals products a d cart).items) :
    ∃ item, resolveCartLine products a d item = some entry := by
  unfold cartTotals at hmem
  simp only [List.mem_filterMap] at hmem
  rcases hmem with ⟨item, _, h⟩
  exact ⟨item, h⟩

theorem benefitsForCart_bdayApplied (today : SimpleDate) (s : CustomerUser)
    (items : List CartEntry) (subTotal : Nat) :
    (benefitsForCart today (some s) items subTotal).bdayApplied = true ↔
      ∃ c, items.find? (fun i => i.product.id = BDAY_CAKE_ID) = some c ∧
        birthdayRewardAvailable today (some s) = true ∧ c.qty > 0 ∧
        c.pricing.discountTotal > 0 := by
  unfold benefitsForCart
  cases hfind : items.find? (fun i => i.product.id = BDAY_CAKE_ID) with
  | none => simp [hfind]
  | some c =>
      simp only [hfind]
      by_cases hguard : birthdayRewardAvailable today (some s) = true ∧ c.qty > 0
      · by_cases honly : items.length = 1 ∧ c.product.id = BDAY_CAKE_ID
        · simp [hguard, honly]
        · simp [hguard, honly]
      · simp [hguard]
        tauto

theorem benefitsForCart_freeShipping (today : SimpleDate) (s : CustomerUser)
    (items : List CartEntry) (subTotal : Nat) :
    (benefitsForCart today (some s) items subTotal).freeShipping = true ↔
      ∃ c, items.find? (fun i => i.product.id = BDAY_CAKE_ID) = some c ∧
        birthdayRewardAvailable today (some s) = true ∧ c.qty > 0 ∧
        items.length = 1 ∧ c.product.id = BDAY_CAKE_ID := by
  unfold benefitsForCart
  cases hfind : items.find? (fun i => i.product.id = BDAY_CAKE_ID) with
  | none => simp [hfind]
  | some c =>
      simp only [hfind]
      by_cases hguard : birthdayRewardAvailable today (some s) = true ∧ c.qty > 0
      · by_cases honly : items.length = 1 ∧ c.product.id = BDAY_CAKE_ID
        · simp [hguard, honly]
        · simp [hguard, honly]
      · simp [hguard]
        tauto

theorem cartTotals_cake_discount_zero (today : SimpleDate)
    (profile : Option CustomerUser) (data : List ProductResponse)
    (cart : List CartItem) (entry : CartEntry)
    (hmem : entry ∈ (cartTotals (fetchProductsPure data)
      (birthdayRewardAvailable today profile)
      (userDiscountPercent today profile) cart).items)
    (hid : entry.product.id = BDAY_CAKE_ID) :
    entry.pricing.discountTotal = 0 := by
  rcases cartTotals_entry_mem _ _ _ _ _ hmem with ⟨item, hres⟩
  rcases resolveCartLine_entry _ _ _ _ _ hres with ⟨hpm, hpr, _⟩
  have hzero := fetchProductsPure_cake_price data entry.product hpm hid
  rw [hpr]
  exact getProductPricing_discountTotal_zero _ _ _ _ hzero

/-! ## Claim theorems -/

/-- C2: for every product with non-negative base price `p` and every quantity
input, when the birthday-cake special case does not apply, `getProductPricing`
coerces the quantity to `n = max(1, ⌊q⌋)` (non-finite defaults to 1) and
returns `unitPrice = round(p * (1 - d))` floored at 0 (here `roundDiscounted`,
exact round-half-up in percent points), `discountPerUnit = p - unitPrice`,
`originalTotal = p * n`, and `total = unitPrice * n`; in particular
`p = 25000`, `d = 50`, `n = 1` yields `unitPrice = 12500` and
`discountPerUnit = 12500`. -/
theorem pricing_general_case (bdayAvail : Bool) (d : Nat) (product : Product)
    (q : Option ℚ) (hnc : ¬(product.id = BDAY_CAKE_ID ∧ bdayAvail = true)) :
    (getProductPricing bdayAvail d product q).unitPrice = roundDiscounted product.precio d ∧
    ((getProductPricing bdayAvail d product q).discountPerUnit : Int) =
      (product.precio : Int) - (getProductPricing bdayAvail d product q).unitPrice ∧
    (getProductPricing bdayAvail d product q).originalTotal =
      product.precio * coerceQuantity q ∧
    (getProductPricing bdayAvail d product q).total =
      (getProductPricing bdayAvail d product q).unitPrice * coerceQuantity q ∧
    coerceQuantity none = 1 ∧
    (∀ r : ℚ, coerceQuantity (some r) = (max 1 ⌊r⌋).toNat) ∧
    (getProductPricing false 50 ⟨"P1", 25000, 5⟩ (some 1)).unitPrice = 12500 ∧
    (getProductPricing false 50 ⟨"P1", 25000, 5⟩ (some 1)).discountPerUnit = 12500 := by
  have hle := getProductPricing_unitPrice_le bdayAvail d product q
  have hunit : (getProductPricing bdayAvail d product q).unitPrice =
      roundDiscounted product.precio d := by
    unfold getProductPricing
    simp only [hnc, if_false]
    by_cases hd : d > 0
    · simp [hd]
    · have hd0 : d = 0 := by omega
      simp [hd, hd0, roundDiscounted]
      omega
  refine ⟨hunit, ?_, ?_, ?_, rfl, fun r => rfl, by decide, by decide⟩
  · unfold getProductPricing at hle ⊢
    simp only [hnc, if_false] at hle ⊢
    omega
  · unfold getProductPricing
    simp [hnc]
  · unfold getProductPricing
    simp [hnc]

/-- Witness for C2 at `p = 25000`, `d = 50`, quantity 1 on a non-cake product. -/
theorem pricing_general_case_witness :
    ¬(("P1" : String) = BDAY_CAKE_ID ∧ false = true) ∧
    (getProductPricing false 50 ⟨"P1", 25000, 5⟩ (some 1)).unitPrice =
      roundDiscounted 25000 50 :=
  ⟨by decide, (pricing_general_case false 50 ⟨"P1", 25000, 5⟩ (some 1) (by decide)).1⟩

/-- C3: every `ProductPricing` produced by `getProductPricing` — in both the
birthday-cake branch and the general branch, for the discount percent the
customer context actually produces — reconciles
`unitPrice + discountPerUnit = originalUnitPrice`, satisfies
`total = unitPrice * quantity`, and all of `unitPrice`, `discountPerUnit`,
`total` are non-negative. -/
theorem pricing_invariants (today : SimpleDate) (profile : Option CustomerUser)
    (bdayAvail : Bool) (product : Product) (q : Option ℚ) :
    (getProductPricing bdayAvail (userDiscountPercent today profile) product q).unitPrice +
        (getProductPricing bdayAvail (userDiscountPercent today profile) product q).discountPerUnit =
      (getProductPricing bdayAvail (userDiscountPercent today profile) product q).originalUnitPrice ∧
    (getProductPricing bdayAvail (userDiscountPercent today profile) product q).total =
      (getProductPricing bdayAvail (userDiscountPercent today profile) product q).unitPrice *
        coerceQuantity q ∧
    0 ≤ ((getProductPricing bdayAvail (userDiscountPercent today profile) product q).unitPrice : Int) ∧
    0 ≤ ((getProductPricing bdayAvail (userDiscountPercent today profile) product q).discountPerUnit : Int) ∧
    0 ≤ ((getProductPricing bdayAvail (userDiscountPercent today profile) product q).total : Int) := by
  set d := userDiscountPercent today profile with hd
  have hle := getProductPricing_unitPrice_le bdayAvail d product q
  refine ⟨?_, ?_, by positivity, by positivity, by positivity⟩
  · unfold getProductPricing at hle ⊢
    by_cases h : product.id = BDAY_CAKE_ID ∧ bdayAvail = true
    · simp [h]
    · simp only [h, if_false] at hle ⊢
      omega
  · unfold getProductPricing
    by_cases h : product.id = BDAY_CAKE_ID ∧ bdayAvail = true
    · simp [h]
    · simp [h]

/-- C1: for every cart subtotal `s`, benefits result (birthday discount `b`,
promo discount `u`, free-shipping flag `f`), entered coupon, and selected
shipping cost `h`, the checkout total of `CarritoPage` is computed in exactly
the claimed order (`totalizeSpec`); in particular base 20000 after benefits,
shipping 3000, and a valid flat-5000 coupon give final total 18000. -/
theorem checkout_totalizer_order (coupon : String)
    (couponDefinitions : List (String × CouponInfo)) (s : Nat)
    (benefits : UserBenefits) (h : Nat) :
    ((carritoCheckout coupon couponDefinitions s benefits h).total : Int) =
      totalizeSpec coupon couponDefinitions s benefits.bdayDisc benefits.userDisc
        benefits.freeShipping h ∧
    (carritoCheckout "5000OFF"
        [("5000OFF", ⟨"5000OFF", CouponKind.amount, 5000, "Flat 5000"⟩)]
        20000 ⟨0, "", 0, "", false, false, false, ""⟩ 3000).total = 18000 := by
  constructor
  · unfold carritoCheckout totalizeSpec
    have hbase : ((s : Int) - benefits.bdayDisc - benefits.userDisc).toNat =
        (max 0 ((s : Int) - benefits.bdayDisc - benefits.userDisc)).toNat := by
      omega
    have hship : ((if benefits.freeShipping then 0 else h : Nat)) =
        (if benefits.freeShipping then (0 : Int) else (h : Int)).toNat := by
      by_cases hf : benefits.freeShipping <;> simp [hf]
    rw [hbase, hship]
    set base : Int := (s : Int) - benefits.bdayDisc - benefits.userDisc with hbdef
    set ce := evaluateCoupon coupon couponDefinitions (max 0 base).toNat
      (if benefits.freeShipping then (0 : Int) else (h : Int)).toNat with hce
    by_cases hf : benefits.freeShipping
    · by_cases hv : ce.valid <;> simp [hf, hv] <;> omega
    · by_cases hv : ce.valid <;> simp [hf, hv] <;> omega
  · decide

/-- C4: `evaluateCoupon` is total and, after trimming and upper-casing the
entered code: an empty code, the reserved `FELICES50`, or an unknown code is
invalid with discount 0 and the shipping cost passed through; a flat-amount
coupon is valid with `discount = clamp(value, 0, subtotal)` (never more than
the subtotal) and shipping unchanged; a free-shipping coupon is valid with
discount 0 and shipping forced to 0 — including when the input shipping is
already 0.  Concretely, subtotal 3000 against flat value 5000 discounts
exactly 3000. -/
theorem coupon_evaluator_cases (raw : String) (defs : List (String × CouponInfo))
    (s h : Nat) :
    ((jsToUpper (jsTrim raw) = "" ∨ jsToUpper (jsTrim raw) = FELICES_CODE ∨
        defs.lookup (jsToUpper (jsTrim raw)) = none) →
      evaluateCoupon raw defs s h =
        { valid := false, discount := 0, shipAfter := h, label := none, code := none }) ∧
    (∀ d, defs.lookup (jsToUpper (jsTrim raw)) = some d →
      jsToUpper (jsTrim raw) ≠ "" → jsToUpper (jsTrim raw) ≠ FELICES_CODE →
      d.type = CouponKind.amount →
      evaluateCoupon raw defs s h =
          { valid := true, discount := min s d.value.toNat, shipAfter := h,
            label := some d.label, code := some (jsToUpper (jsTrim raw)) } ∧
        min s d.value.toNat ≤ s) ∧
    (∀ d, defs.lookup (jsToUpper (jsTrim raw)) = some d →
      jsToUpper (jsTrim raw) ≠ "" → jsToUpper (jsTrim raw) ≠ FELICES_CODE →
      d.type = CouponKind.ship →
      evaluateCoupon raw defs s h =
        { valid := true, discount := 0, shipAfter := 0,
          label := some d.label, code := some (jsToUpper (jsTrim raw)) }) ∧
    (evaluateCoupon "5000OFF"
        [("5000OFF", ⟨"5000OFF", CouponKind.amount, 5000, "Flat 5000"⟩)]
        3000 h).discount = 3000 ∧
    (evaluateCoupon "SHIPFREE"
        [("SHIPFREE", ⟨"SHIPFREE", CouponKind.ship, 0, "Free ship"⟩)]
        s 0).shipAfter = 0 := by
  have hclamp : ∀ (v : Int), (min (s : Int) v).toNat = min s v.toNat := by
    intro v; omega
  refine ⟨?_, ?_, ?_, ?_, ?_⟩
  · intro hbad
    unfold evaluateCoupon
    rcases hbad with hbad | hbad | hbad
    · simp [hbad]
    · simp [hbad]
    · by_cases hres : jsToUpper (jsTrim raw) = "" ∨ jsToUpper (jsTrim raw) = FELICES_CODE
      · simp [hres]
      · simp [hres, hbad]
  · intro d hlook hne hnf htype
    unfold evaluateCoupon
    have hres : ¬(jsToUpper (jsTrim raw) = "" ∨ jsToUpper (jsTrim raw) = FELICES_CODE) := by
      push_neg; exact ⟨hne, hnf⟩
    simp only [hres, if_false, hlook, htype]
    exact ⟨by rw [hclamp d.value], Nat.min_le_left _ _⟩
  · intro d hlook hne hnf htype
    unfold evaluateCoupon
    have hres : ¬(jsToUpper (jsTrim raw) = "" ∨ jsToUpper (jsTrim raw) = FELICES_CODE) := by
      push_neg; exact ⟨hne, hnf⟩
    simp [hres, hlook, htype]
  · unfold evaluateCoupon
    simp only [show jsToUpper (jsTrim "5000OFF") = "5000OFF" from by decide]
    simp only [show ¬(("5000OFF" : String) = "" ∨ ("5000OFF" : String) = FELICES_CODE)
      from by decide, if_false]
    simp
  · unfold evaluateCoupon
    simp only [show jsToUpper (jsTrim "SHIPFREE") = "SHIPFREE" from by decide]
    simp only [show ¬(("SHIPFREE" : String) = "" ∨ ("SHIPFREE" : String) = FELICES_CODE)
      from by decide, if_false]
    simp

/-- Witness for C4: the flat-amount branch at an entered code with spaces and
lower case, a catalog holding that coupon, subtotal 3000, shipping 2000. -/
theorem coupon_evaluator_cases_witness :
    ([("5000OFF", (⟨"5000OFF", CouponKind.amount, 5000, "Flat 5000"⟩ : CouponInfo))].lookup
        (jsToUpper (jsTrim " 5000off ")) =
      some ⟨"5000OFF", CouponKind.amount, 5000, "Flat 5000"⟩) ∧
    evaluateCoupon " 5000off "
        [("5000OFF", ⟨"5000OFF", CouponKind.amount, 5000, "Flat 5000"⟩)] 3000 2000 =
      { valid := true, discount := min 3000 ((5000 : Int)).toNat, shipAfter := 2000,
        label := some "Flat 5000", code := some (jsToUpper (jsTrim " 5000off ")) } :=
  ⟨by decide,
    ((coupon_evaluator_cases " 5000off "
        [("5000OFF", ⟨"5000OFF", CouponKind.amount, 5000, "Flat 5000"⟩)] 3000 2000).2.1
      ⟨"5000OFF", CouponKind.amount, 5000, "Flat 5000"⟩
      (by decide) (by decide) (by decide) (by decide)).1⟩

/-- C5: for every authenticated profile, the discount percent is 50% when the
age computed from the birth date at evaluation time exceeds 50; otherwise 10%
when the promo code upper-cases to `FELICES50` or the permanent flag is set;
otherwise 0%.  The age rule supersedes the promo rule (never cumulative), and
a guest always gets 0%. -/
theorem discount_percent_rule (today : SimpleDate) (p : CustomerUser) :
    userDiscountPercent today none = 0 ∧
    ((∃ a, computeAge today p.fnac = some a ∧ a > 50) →
      userDiscountPercent today (some p) = 50) ∧
    (¬(∃ a, computeAge today p.fnac = some a ∧ a > 50) →
      (p.promoCode.map jsToUpper = some FELICES_CODE ∨ p.felices50 = true) →
      userDiscountPercent today (some p) = 10) ∧
    (¬(∃ a, computeAge today p.fnac = some a ∧ a > 50) →
      ¬(p.promoCode.map jsToUpper = some FELICES_CODE ∨ p.felices50 = true) →
      userDiscountPercent today (some p) = 0) := by
  have hguard : ((match computeAge today p.fnac with
      | some age => decide (age > 50)
      | none => false) = true) ↔ (∃ a, computeAge today p.fnac = some a ∧ a > 50) := by
    cases hca : computeAge today p.fnac with
    | none => simp
    | some a => simp
  refine ⟨rfl, ?_, ?_, ?_⟩
  · intro hage
    show (if _ = true then SENIOR_DISCOUNT else _) = 50
    rw [if_pos (hguard.mpr hage)]
    rfl
  · intro hage hpromo
    show (if _ = true then SENIOR_DISCOUNT else _) = 10
    rw [if_neg (fun h => hage (hguard.mp h)), if_pos hpromo]
    rfl
  · intro hage hpromo
    show (if _ = true then SENIOR_DISCOUNT else _) = 0
    rw [if_neg (fun h => hage (hguard.mp h)), if_neg hpromo]

/-- Witness for C5: a 56-year-old whose promo code also matches still gets
50%, and a 26-year-old with promo code `felices50` (lower case) gets 10%. -/
theorem discount_percent_rule_witness :
    (∃ a, computeAge ⟨2026, 10, 11⟩ (some ⟨1970, 1, 1⟩) = some a ∧ a > 50) ∧
    userDiscountPercent ⟨2026, 10, 11⟩
        (some ⟨"a@x.cl", some ⟨1970, 1, 1⟩, some "felices50", false, none⟩) = 50 ∧
    userDiscountPercent ⟨2026, 10, 11⟩
        (some ⟨"b@x.cl", some ⟨2000, 1, 1⟩, some "felices50", false, none⟩) = 10 :=
  ⟨⟨56, by decide, by decide⟩,
    (discount_percent_rule ⟨2026, 10, 11⟩
        ⟨"a@x.cl", some ⟨1970, 1, 1⟩, some "felices50", false, none⟩).2.1
      ⟨56, by decide, by decide⟩,
    (discount_percent_rule ⟨2026, 10, 11⟩
        ⟨"b@x.cl", some ⟨2000, 1, 1⟩, some "felices50", false, none⟩).2.2.1
      (by decide) (Or.inl (by decide))⟩

/-- C7: the birthday reward is eligible exactly when the email matches the
academic domain pattern and today's month/day equals the birth month/day;
it is available exactly when eligible and `bdayRedeemedYear` differs from the
current calendar year; and after a redemption recorded for the current year,
re-evaluating benefits yields `bdayApplied = false`. -/
theorem birthday_reward_once_per_year (today : SimpleDate) (s : CustomerUser) :
    (birthdayRewardEligible today (some s) = true ↔
      (emailDuocTest s.email = true ∧
        ∃ b, s.fnac = some b ∧ b.month = today.month ∧ b.day = today.day)) ∧
    (birthdayRewardAvailable today (some s) = true ↔
      (birthdayRewardEligible today (some s) = true ∧
        s.bdayRedeemedYear ≠ some today.year)) ∧
    (s.bdayRedeemedYear = some today.year →
      ∀ items subTotal,
        (benefitsForCart today (some s) items subTotal).bdayApplied = false) := by
  refine ⟨?_, ?_, ?_⟩
  · unfold birthdayRewardEligible isBirthdayToday
    cases hf : s.fnac with
    | none => simp [hf]
    | some b =>
        simp only [hf, Bool.and_eq_true, beq_iff_eq, decide_eq_true_eq]
        constructor
        · rintro ⟨he, hm, hd⟩
          exact ⟨he, b, rfl, hm.symm, hd.symm⟩
        · rintro ⟨he, b', hb, hm, hd⟩
          cases hb
          exact ⟨he, ⟨hm.symm, hd.symm⟩⟩
  · unfold birthdayRewardAvailable
    cases hr : s.bdayRedeemedYear with
    | none => simp [hr]
    | some y => simp [hr]
  · intro hred items subTotal
    have havail : birthdayRewardAvailable today (some s) = false := by
      unfold birthdayRewardAvailable
      simp [hred]
    rw [← Bool.not_eq_true]
    intro happ
    rcases (benefitsForCart_bdayApplied today s items subTotal).mp happ with
      ⟨c, _, havail2, _⟩
    rw [havail] at havail2
    exact Bool.false_ne_true havail2

/-- Witness for C7: a customer who redeemed the reward in 2026 gets
`bdayApplied = false` on a birthday cart evaluated in 2026. -/
theorem birthday_reward_once_per_year_witness :
    (some (2026 : Int) = some (⟨2026, 10, 11⟩ : SimpleDate).year) ∧
    (benefitsForCart ⟨2026, 10, 11⟩
        (some ⟨"a@duoc.cl", some ⟨2000, 10, 11⟩, none, false, some 2026⟩)
        [⟨⟨"BDAY001", 0, 5⟩, 1, "", 0,
          ⟨0, 0, 100, 0, 0, 0, 0⟩⟩] 0).bdayApplied = false :=
  ⟨by decide,
    (birthday_reward_once_per_year ⟨2026, 10, 11⟩
        ⟨"a@duoc.cl", some ⟨2000, 10, 11⟩, none, false, some 2026⟩).2.2
      (by decide)
      [⟨⟨"BDAY001", 0, 5⟩, 1, "", 0, ⟨0, 0, 100, 0, 0, 0, 0⟩⟩] 0⟩

/-- Counterexample to C6 as stated: the concrete pipeline with birthday reward
available and a cart holding the birthday cake plus one other product has
`bdayApplied = false`, not `true` — the cake's catalog price is forced to 0,
so the cake discount is 0 and `bdayApplied = (discount > 0)` is false. -/
theorem freeShipping_exclusivity_counterexample :
    birthdayRewardAvailable ⟨2026, 10, 11⟩
        (some ⟨"a@duoc.cl", some ⟨2000, 10, 11⟩, none, false, none⟩) = true ∧
    (cartTotals
        (fetchProductsPure [⟨"BDAY001", 10000, 5, true⟩, ⟨"P1", 1000, 5, true⟩])
        (birthdayRewardAvailable ⟨2026, 10, 11⟩
          (some ⟨"a@duoc.cl", some ⟨2000, 10, 11⟩, none, false, none⟩))
        (userDiscountPercent ⟨2026, 10, 11⟩
          (some ⟨"a@duoc.cl", some ⟨2000, 10, 11⟩, none, false, none⟩))
        [⟨"BDAY001", some 1, ""⟩, ⟨"P1", some 1, ""⟩]).items.map
      (fun e => e.product.id) = ["BDAY001", "P1"] ∧
    (benefitsForCart ⟨2026, 10, 11⟩
        (some ⟨"a@duoc.cl", some ⟨2000, 10, 11⟩, none, false, none⟩)
        (cartTotals
          (fetchProductsPure [⟨"BDAY001", 10000, 5, true⟩, ⟨"P1", 1000, 5, true⟩])
          (birthdayRewardAvailable ⟨2026, 10, 11⟩
            (some ⟨"a@duoc.cl", some ⟨2000, 10, 11⟩, none, false, none⟩))
          (userDiscountPercent ⟨2026, 10, 11⟩
            (some ⟨"a@duoc.cl", some ⟨2000, 10, 11⟩, none, false, none⟩))
          [⟨"BDAY001", some 1, ""⟩, ⟨"P1", some 1, ""⟩]).items
        (cartTotals
          (fetchProductsPure [⟨"BDAY001", 10000, 5, true⟩, ⟨"P1", 1000, 5, true⟩])
          (birthdayRewardAvailable ⟨2026, 10, 11⟩
            (some ⟨"a@duoc.cl", some ⟨2000, 10, 11⟩, none, false, none⟩))
          (userDiscountPercent ⟨2026, 10, 11⟩
            (some ⟨"a@duoc.cl", some ⟨2000, 10, 11⟩, none, false, none⟩))
          [⟨"BDAY001", some 1, ""⟩, ⟨"P1", some 1, ""⟩]).subTotal).bdayApplied =
      false := by
  decide

/-- C6 amended: through the real pipeline (catalog loaded by the product
service, cart aggregated by `cartTotals`), `bdayApplied` is always false —
the cake's catalog price is forced to zero, so the cake line's discount is
zero; a cart with two or more lines never grants free shipping; and free
shipping is granted only when the cart consists of exactly one line and that
line is the birthday cake. -/
theorem freeShipping_exclusivity_amended (today : SimpleDate)
    (profile : Option CustomerUser) (data : List ProductResponse)
    (cart : List CartItem) :
    let t := cartTotals (fetchProductsPure data)
      (birthdayRewardAvailable today profile) (userDiscountPercent today profile) cart
    let b := benefitsForCart today profile t.items t.subTotal
    b.bdayApplied = false ∧
      (t.items.length ≠ 1 → b.freeShipping = false) ∧
      (b.freeShipping = true →
        t.items.length = 1 ∧ ∀ e ∈ t.items, e.product.id = BDAY_CAKE_ID) := by
  intro t b
  cases profile with
  | none => exact ⟨rfl, fun _ => rfl, fun h => absurd h (by simp [b, benefitsForCart])⟩
  | some s =>
      refine ⟨?_, ?_, ?_⟩
      · rw [← Bool.not_eq_true]
        intro happ
        rcases (benefitsForCart_bdayApplied today s t.items t.subTotal).mp happ with
          ⟨c, hfind, _, _, hpos⟩
        have hid : c.product.id = BDAY_CAKE_ID := by
          have := List.find?_some hfind
          simpa using this
        have hmem : c ∈ t.items := List.mem_of_find?_eq_some hfind
        have hzero := cartTotals_cake_discount_zero today (some s) data cart c hmem hid
        omega
      · intro hlen
        rw [← Bool.not_eq_true]
        intro hfs
        rcases (benefitsForCart_freeShipping today s t.items t.subTotal).mp hfs with
          ⟨c, _, _, _, hone, _⟩
        exact hlen hone
      · intro hfs
        rcases (benefitsForCart_freeShipping today s t.items t.subTotal).mp hfs with
          ⟨c, hfind, _, _, hone, hid⟩
        refine ⟨hone, ?_⟩
        have hmem : c ∈ t.items := List.mem_of_find?_eq_some hfind
        rcases List.length_eq_one.mp hone with ⟨a, ha⟩
        intro e he
        rw [ha] at hmem he
        simp only [List.mem_singleton] at hmem he
        rw [he, ← hmem]
        exact hid

/-- Witness for C6 amended: the concrete two-line cart (cake + another
product) has two lines, so free shipping is denied. -/
theorem freeShipping_exclusivity_amended_witness :
    ((cartTotals
        (fetchProductsPure [⟨"BDAY001", 10000, 5, true⟩, ⟨"P1", 1000, 5, true⟩])
        (birthdayRewardAvailable ⟨2026, 10, 11⟩
          (some ⟨"a@duoc.cl", some ⟨2000, 10, 11⟩, none, false, none⟩))
        (userDiscountPercent ⟨2026, 10, 11⟩
          (some ⟨"a@duoc.cl", some ⟨2000, 10, 11⟩, none, false, none⟩))
        [⟨"BDAY001", some 1, ""⟩, ⟨"P1", some 1, ""⟩]).items.length ≠ 1) ∧
    (benefitsForCart ⟨2026, 10, 11⟩
        (some ⟨"a@duoc.cl", some ⟨2000, 10, 11⟩, none, false, none⟩)
        (cartTotals
          (fetchProductsPure [⟨"BDAY001", 10000, 5, true⟩, ⟨"P1", 1000, 5, true⟩])
          (birthdayRewardAvailable ⟨2026, 10, 11⟩
            (some ⟨"a@duoc.cl", some ⟨2000, 10, 11⟩, none, false, none⟩))
          (userDiscountPercent ⟨2026, 10, 11⟩
            (some ⟨"a@duoc.cl", some ⟨2000, 10, 11⟩, none, false, none⟩))
          [⟨"BDAY001", some 1, ""⟩, ⟨"P1", some 1, ""⟩]).items
        (cartTotals
          (fetchProductsPure [⟨"BDAY001", 10000, 5, true⟩, ⟨"P1", 1000, 5, true⟩])
          (birthdayRewardAvailable ⟨2026, 10, 11⟩
            (some ⟨"a@duoc.cl", some ⟨2000, 10, 11⟩, none, false, none⟩))
          (userDiscountPercent ⟨2026, 10, 11⟩
            (some ⟨"a@duoc.cl", some ⟨2000, 10, 11⟩, none, false, none⟩))
          [⟨"BDAY001", some 1, ""⟩, ⟨"P1", some 1, ""⟩]).subTotal).freeShipping =
      false :=
  ⟨by decide,
    (freeShipping_exclusivity_amended ⟨2026, 10, 11⟩
        (some ⟨"a@duoc.cl", some ⟨2000, 10, 11⟩, none, false, none⟩)
        [⟨"BDAY001", 10000, 5, true⟩, ⟨"P1", 1000, 5, true⟩]
        [⟨"BDAY001", some 1, ""⟩, ⟨"P1", some 1, ""⟩]).2.1 (by decide)⟩

theorem benefitsForCart_userDisc (today : SimpleDate) (s : CustomerUser)
    (items : List CartEntry) (subTotal : Nat) :
    (benefitsForCart today (some s) items subTotal).userDisc =
      if userDiscountPercent today (some s) > 0 then
        min (subTotal - (benefitsForCart today (some s) items subTotal).bdayDisc)
          ((items.map (fun e => e.pricing.discountTotal)).sum)
      else 0 := by
  unfold benefitsForCart
  cases hfind : items.find? (fun i => i.product.id = BDAY_CAKE_ID) with
  | none => simp [hfind]
  | some c =>
      by_cases hguard : birthdayRewardAvailable today (some s) = true ∧ c.qty > 0
      · by_cases honly : items.length = 1 ∧ c.product.id = BDAY_CAKE_ID
        · simp [hfind, hguard, honly]
        · simp [hfind, hguard, honly]
      · simp [hfind, hguard]

theorem pipeline_bdayDisc_zero (today : SimpleDate) (profile : Option CustomerUser)
    (data : List ProductResponse) (cart : List CartItem) :
    (benefitsForCart today profile
        (cartTotals (fetchProductsPure data) (birthdayRewardAvailable today profile)
          (userDiscountPercent today profile) cart).items
        (cartTotals (fetchProductsPure data) (birthdayRewardAvailable today profile)
          (userDiscountPercent today profile) cart).subTotal).bdayDisc = 0 := by
  set t := cartTotals (fetchProductsPure data) (birthdayRewardAvailable today profile)
    (userDiscountPercent today profile) cart with ht
  cases profile with
  | none => rfl
  | some s =>
      unfold benefitsForCart
      cases hfind : t.items.find? (fun i => i.product.id = BDAY_CAKE_ID) with
      | none => simp [hfind]
      | some c =>
          have hid : c.product.id = BDAY_CAKE_ID := by
            have := List.find?_some hfind
            simpa using this
          have hmem : c ∈ t.items := List.mem_of_find?_eq_some hfind
          have hzero := cartTotals_cake_discount_zero today (some s) data cart c hmem hid
          by_cases hguard : birthdayRewardAvailable today (some s) = true ∧ c.qty > 0
          · by_cases honly : t.items.length = 1 ∧ c.product.id = BDAY_CAKE_ID
            · simp [hfind, hguard, honly, hzero]
            · simp [hfind, hguard, honly, hzero]
          · simp [hfind, hguard]

theorem pipeline_discount_sum_le (today : SimpleDate) (profile : Option CustomerUser)
    (data : List ProductResponse) (cart : List CartItem) :
    ((cartTotals (fetchProductsPure data) (birthdayRewardAvailable today profile)
        (userDiscountPercent today profile) cart).items.map
      (fun e => e.pricing.discountTotal)).sum ≤
      (cartTotals (fetchProductsPure data) (birthdayRewardAvailable today profile)
        (userDiscountPercent today profile) cart).subTotal := by
  set t := cartTotals (fetchProductsPure data) (birthdayRewardAvailable today profile)
    (userDiscountPercent today profile) cart with ht
  have hsub : t.subTotal = (t.items.map (fun e => e.subtotal)).sum := rfl
  rw [hsub]
  apply List.sum_le_sum
  intro e he
  rcases cartTotals_entry_mem _ _ _ _ _ he with ⟨item, hres⟩
  rcases resolveCartLine_entry _ _ _ _ _ hres with ⟨_, hpr, hst⟩
  rw [hst, hpr]
  exact getProductPricing_discountTotal_le _ _ _ _

/-- C8: through the real pipeline, the senior/promo percentage discount and
the birthday-cake discount are computed independently — `userDisc` equals the
sum of the per-line discounts, each computed against the original
(undiscounted) line amount and never exceeding it — and the post-benefits
base equals `subtotal - birthdayDiscount - promoDiscount` with both
subtracted (no clamping bites: the two discounts never exceed the subtotal). -/
theorem benefits_combination_rule (today : SimpleDate) (profile : Option CustomerUser)
    (data : List ProductResponse) (cart : List CartItem) :
    let t := cartTotals (fetchProductsPure data)
      (birthdayRewardAvailable today profile) (userDiscountPercent today profile) cart
    let b := benefitsForCart today profile t.items t.subTotal
    b.bdayDisc + b.userDisc ≤ t.subTotal ∧
      b.userDisc = (if userDiscountPercent today profile > 0 then
        (t.items.map (fun e => e.pricing.discountTotal)).sum else 0) ∧
      (∀ e ∈ t.items, e.pricing.discountTotal ≤ e.subtotal) ∧
      (∀ coupon defs h,
        ((carritoCheckout coupon defs t.subTotal b h).baseAfterBenefits : Int) =
          (t.subTotal : Int) - b.bdayDisc - b.userDisc) := by
  intro t b
  have hbd : b.bdayDisc = 0 := pipeline_bdayDisc_zero today profile data cart
  have hsum := pipeline_discount_sum_le today profile data cart
  have huser : b.userDisc = (if userDiscountPercent today profile > 0 then
      (t.items.map (fun e => e.pricing.discountTotal)).sum else 0) := by
    cases profile with
    | none => rfl
    | some s =>
        have := benefitsForCart_userDisc today s t.items t.subTotal
        rw [show (benefitsForCart today (some s) t.items t.subTotal).bdayDisc = 0
          from hbd] at this
        rw [this, Nat.sub_zero]
        by_cases hp : userDiscountPercent today (some s) > 0
        · rw [if_pos hp, if_pos hp, Nat.min_eq_right hsum]
        · rw [if_neg hp, if_neg hp]
  have hule : b.userDisc ≤ t.subTotal := by
    rw [huser]
    by_cases hp : userDiscountPercent today profile > 0
    · rw [if_pos hp]; exact hsum
    · rw [if_neg hp]; exact Nat.zero_le _
  refine ⟨by omega, huser, ?_, ?_⟩
  · intro e he
    rcases cartTotals_entry_mem _ _ _ _ _ he with ⟨item, hres⟩
    rcases resolveCartLine_entry _ _ _ _ _ hres with ⟨_, hpr, hst⟩
    rw [hst, hpr]
    exact getProductPricing_discountTotal_le _ _ _ _
  · intro coupon defs h
    show ((((t.subTotal : Int) - b.bdayDisc - b.userDisc).toNat : Nat) : Int) = _
    omega

/-- Witness for C8 at a concrete pipeline: a senior customer, a catalog with
the cake and one normal product, a two-line cart; the normal line's discount
does not exceed its original amount. -/
theorem benefits_combination_rule_witness :
    (⟨⟨"P1", 1000, 5⟩, 1, "", 1000, ⟨1000, 500, 50, 500, 1000, 500, 500⟩⟩ :
        CartEntry) ∈
      (cartTotals
        (fetchProductsPure [⟨"BDAY001", 10000, 5, true⟩, ⟨"P1", 1000, 5, true⟩])
        (birthdayRewardAvailable ⟨2026, 10, 11⟩
          (some ⟨"a@duoc.cl", some ⟨1970, 10, 11⟩, none, false, none⟩))
        (userDiscountPercent ⟨2026, 10, 11⟩
          (some ⟨"a@duoc.cl", some ⟨1970, 10, 11⟩, none, false, none⟩))
        [⟨"BDAY001", some 1, ""⟩, ⟨"P1", some 1, ""⟩]).items ∧
    (⟨⟨"P1", 1000, 5⟩, 1, "", 1000, ⟨1000, 500, 50, 500, 1000, 500, 500⟩⟩ :
        CartEntry).pricing.discountTotal ≤
      (⟨⟨"P1", 1000, 5⟩, 1, "", 1000, ⟨1000, 500, 50, 500, 1000, 500, 500⟩⟩ :
        CartEntry).subtotal :=
  ⟨by decide,
    (benefits_combination_rule ⟨2026, 10, 11⟩
        (some ⟨"a@duoc.cl", some ⟨1970, 10, 11⟩, none, false, none⟩)
        [⟨"BDAY001", 10000, 5, true⟩, ⟨"P1", 1000, 5, true⟩]
        [⟨"BDAY001", some 1, ""⟩, ⟨"P1", some 1, ""⟩]).2.2.1
      ⟨⟨"P1", 1000, 5⟩, 1, "", 1000, ⟨1000, 500, 50, 500, 1000, 500, 500⟩⟩
      (by decide)⟩

/-- Counterexample to C9 as stated: the birthday-cake ceiling is per cart
line, not per cart — two cake lines with distinct gift messages (the cart
identity key is `(productId, message)`) each survive with quantity 1, so the
aggregated cart holds two birthday cakes even though the stock ceiling for
the cake is `min(1, stock)`. -/
theorem cake_per_cart_counterexample :
    ((cartTotals [⟨"BDAY001", 0, 5⟩] true 0
        [⟨"BDAY001", some 1, "a"⟩, ⟨"BDAY001", some 5, "b"⟩]).items.map
      (fun e => e.product.id)) = ["BDAY001", "BDAY001"] ∧
    (cartTotals [⟨"BDAY001", 0, 5⟩] true 0
        [⟨"BDAY001", some 1, "a"⟩, ⟨"BDAY001", some 5, "b"⟩]).totalQty = 2 := by
  decide

/-- C9 amended: cart aggregation is total and self-healing — a line whose
product id is absent from the catalog is silently dropped and the totals are
the sums over the surviving lines only; every surviving line's quantity is
clamped to `max(1, min(requestedQty, availableStock))` with the cake's
availability ceiling `min(1, stock)` (non-finite quantity defaults to 1), so
each surviving *line* carries at most one birthday cake; the at-most-one
bound is per line, not per cart — lines with distinct messages are distinct. -/
theorem cart_aggregation_self_healing (products : List Product) (a : Bool)
    (d : Nat) (cart : List CartItem) (item : CartItem) :
    (products.find? (fun p => p.id = item.id) = none →
      cartTotals products a d (cart ++ [item]) = cartTotals products a d cart) ∧
    (∀ product, products.find? (fun p => p.id = item.id) = some product →
      ∃ entry, resolveCartLine products a d item = some entry ∧
        entry.product = product ∧
        (∀ q : ℚ, item.qty = some q →
          (entry.qty : Int) = max 1 (min
            (if product.id = BDAY_CAKE_ID then min 1 (product.stock : Int)
              else (product.stock : Int)) ⌊q⌋)) ∧
        (item.qty = none → entry.qty = 1) ∧
        (product.id = BDAY_CAKE_ID → entry.qty ≤ 1)) ∧
    ((cartTotals products a d cart).subTotal =
        ((cartTotals products a d cart).items.map (fun e => e.subtotal)).sum ∧
      (cartTotals products a d cart).totalQty =
        ((cartTotals products a d cart).items.map (fun e => e.qty)).sum) := by
  refine ⟨?_, ?_, rfl, rfl⟩
  · intro hfind
    have hres : resolveCartLine products a d item = none := by
      unfold resolveCartLine
      rw [hfind]
    unfold cartTotals
    rw [List.filterMap_append]
    simp [hres]
  · intro product hfind
    refine ⟨⟨product,
      min (max 1 (if product.id = BDAY_CAKE_ID then min 1 product.stock
        else product.stock)) (coerceQuantity item.qty),
      item.msg,
      (getProductPricing a d product
        (some ((min (max 1 (if product.id = BDAY_CAKE_ID then min 1 product.stock
          else product.stock)) (coerceQuantity item.qty) : Nat) : ℚ))).originalTotal,
      getProductPricing a d product
        (some ((min (max 1 (if product.id = BDAY_CAKE_ID then min 1 product.stock
          else product.stock)) (coerceQuantity item.qty) : Nat) : ℚ))⟩,
      ?_, rfl, ?_, ?_, ?_⟩
    · unfold resolveCartLine
      rw [hfind]
    · intro q hq
      rw [hq]
      show ((min (max 1 (if product.id = BDAY_CAKE_ID then min 1 product.stock
        else product.stock)) ((max 1 ⌊q⌋).toNat) : Nat) : Int) = _
      by_cases hc : product.id = BDAY_CAKE_ID
      · simp only [hc, if_pos]
        push_cast
        omega
      · simp only [hc, if_neg, if_false]
        push_cast
        omega
    · intro hq
      rw [hq]
      show min (max 1 (if product.id = BDAY_CAKE_ID then min 1 product.stock
        else product.stock)) (coerceQuantity none) = 1
      rw [show coerceQuantity none = 1 from rfl]
      omega
    · intro hc
      simp only [hc, if_pos]
      omega

/-- Witness for C9 amended: dropping a line for a vanished product and
clamping a finite requested quantity of 7 against stock 5. -/
theorem cart_aggregation_self_healing_witness :
    ([(⟨"P1", 1000, 5⟩ : Product)].find?
        (fun p => p.id = ("GONE" : String)) = none) ∧
    cartTotals [⟨"P1", 1000, 5⟩] false 0
        [⟨"P1", some 2, ""⟩, ⟨"GONE", some 1, ""⟩] =
      cartTotals [⟨"P1", 1000, 5⟩] false 0 [⟨"P1", some 2, ""⟩] ∧
    (∃ entry, resolveCartLine [⟨"P1", 1000, 5⟩] false 0 ⟨"P1", some 7, ""⟩ =
        some entry ∧ entry.qty = 5) :=
  ⟨by decide,
    (cart_aggregation_self_healing [⟨"P1", 1000, 5⟩] false 0
        [⟨"P1", some 2, ""⟩] ⟨"GONE", some 1, ""⟩).1 (by decide),
    by
      rcases (cart_aggregation_self_healing [⟨"P1", 1000, 5⟩] false 0 []
          ⟨"P1", some 7, ""⟩).2.1 ⟨"P1", 1000, 5⟩ (by decide) with
        ⟨entry, hres, _, hq, _, _⟩
      refine ⟨entry, hres, ?_⟩
      have hq7 := hq 7 rfl
      have h7 : ⌊(7 : ℚ)⌋ = 7 := by norm_num
      rw [h7] at hq7
      simp only [show (⟨"P1", 1000, 5⟩ : Product).id = BDAY_CAKE_ID ↔ False by
        simp [BDAY_CAKE_ID], if_false] at hq7
      omega⟩

/-- Counterexample to C10 as stated: a backend record for the birthday cake
with recorded price 10000 is loaded with catalog price 0, and the Pricing
Calculator's `originalUnitPrice` for it is 0, not the recorded 10000 — the
pre-override economic value is not retained anywhere the calculator reads. -/
theorem cake_economic_value_counterexample :
    (mapProduct ⟨"BDAY001", 10000, 5, true⟩).precio = 0 ∧
    (getProductPricing true 0 (mapProduct ⟨"BDAY001", 10000, 5, true⟩)
        (some 1)).originalUnitPrice = 0 ∧
    (getProductPricing false 50 (mapProduct ⟨"BDAY001", 10000, 5, true⟩)
        (some 1)).originalUnitPrice = 0 ∧
    (10000 : Nat) ≠ 0 := by
  decide

/-- C10 amended: the birthday cake's displayed base price is forced to zero on
every catalog load, and the undiscounted economic value the Pricing Calculator
reads (`originalUnitPrice`) is that same forced-zero catalog price — the price
recorded before the override is not retained; every other product's price is
loaded and read unchanged. -/
theorem cake_price_override_amended (r : ProductResponse) (a : Bool) (d : Nat)
    (q : Option ℚ) :
    (r.id = BDAY_CAKE_ID →
      (mapProduct r).precio = 0 ∧
        (getProductPricing a d (mapProduct r) q).originalUnitPrice = 0) ∧
    (r.id ≠ BDAY_CAKE_ID →
      (mapProduct r).precio = r.price ∧
        (getProductPricing a d (mapProduct r) q).originalUnitPrice = r.price) := by
  have horig : ∀ p : Product,
      (getProductPricing a d p q).originalUnitPrice = p.precio := by
    intro p
    unfold getProductPricing
    by_cases h : p.id = BDAY_CAKE_ID ∧ a = true
    · simp [h]
    · simp [h]
  constructor
  · intro hid
    have hp : (mapProduct r).precio = 0 := by simp [mapProduct, hid]
    exact ⟨hp, by rw [horig, hp]⟩
  · intro hid
    have hp : (mapProduct r).precio = r.price := by simp [mapProduct, hid]
    exact ⟨hp, by rw [horig, hp]⟩

/-- Witness for C10 amended: the cake branch at the concrete backend record
with recorded price 10000. -/
theorem cake_price_override_amended_witness :
    (("BDAY001" : String) = BDAY_CAKE_ID) ∧
    (mapProduct ⟨"BDAY001", 10000, 5, true⟩).precio = 0 ∧
      (getProductPricing true 50 (mapProduct ⟨"BDAY001", 10000, 5, true⟩)
        (some 1)).originalUnitPrice = 0 :=
  ⟨by decide,
    (cake_price_override_amended ⟨"BDAY001", 10000, 5, true⟩ true 50 (some 1)).1
      (by decide)⟩

end ReactWeb
